import Mathlib

/-!
Verification development for the `fly-go` API client library.

The Go source is shallowly embedded: each resource operation is split into
its request-construction part (a fixed GraphQL document plus a variable map)
and its response-projection part (a total function on the decoded response
envelope).  Machine-level effects that the source can exhibit — a nil-pointer
dereference, a transport error — are made explicit in an `Outcome` type.
-/

set_option autoImplicit false
set_option linter.unusedVariables false

namespace FlyGo

/-! ### Whitespace classes and query-string compaction (types.go) -/

/-- The characters accepted by Go's `unicode.IsSpace`, i.e. the characters
with the Unicode White_Space property.  `strings.TrimSpace` trims exactly
these from both ends of a string. -/
def unicodeSpaceChars : List Char :=
  ['\t', '\n', '\x0b', '\x0c', '\r', ' ', '\x85', '\xa0',
   ' ', ' ', ' ', ' ', ' ', ' ', ' ',
   ' ', ' ', ' ', ' ', ' ', ' ', ' ',
   ' ', ' ', '　']

/-- Go `unicode.IsSpace`. -/
def unicodeIsSpace (c : Char) : Bool := unicodeSpaceChars.contains c

/-- The character class matched by Go's regexp `\s` (a Perl ASCII class):
tab, newline, form feed, carriage return and space.  Note that the vertical
tab `'\x0b'` is *not* in this class although `unicode.IsSpace` accepts it. -/
def regexIsSpace (c : Char) : Bool :=
  c = '\t' || c = '\n' || c = '\x0c' || c = '\r' || c = ' '

/-- Drop characters satisfying `p` from both ends of a character list.
`trimBy unicodeIsSpace` is Go's `strings.TrimSpace`. -/
def trimBy (p : Char → Bool) (l : List Char) : List Char :=
  ((l.dropWhile p).reverse.dropWhile p).reverse

/-- Go `strings.TrimSpace` on the character list of a string. -/
def trimSpaceList (l : List Char) : List Char := trimBy unicodeIsSpace l

/-- Go `regexp.MustCompile(p+).ReplaceAllString(q, space)` for a character
class `p`: every maximal run of characters satisfying `p` is replaced by a
single space.  The boolean argument records whether the previous character
belonged to the current run. -/
def collapseRunsBy (p : Char → Bool) : Bool → List Char → List Char
  | _, [] => []
  | inRun, c :: cs =>
    if p c then
      if inRun then collapseRunsBy p true cs
      else ' ' :: collapseRunsBy p true cs
    else c :: collapseRunsBy p false cs

/-- `compactQueryString` from types.go: `strings.TrimSpace`, then replace
every match of the pattern `\s+` with a single space. -/
def compactQueryString (q : String) : String :=
  String.mk (collapseRunsBy regexIsSpace false (trimSpaceList q.data))

/-- The normalization described by the spec sentence, read with one uniform
notion of "whitespace character" (Unicode white space, the notion the code's
own trimming step uses): trim surrounding whitespace, then replace every
maximal run of whitespace characters by a single space. -/
def specNormalize (q : String) : String :=
  String.mk (collapseRunsBy unicodeIsSpace false (trimBy unicodeIsSpace q.data))

/-- The same spec sentence read with the other uniform notion of
"whitespace character" (the ASCII class of the regexp `\s`), for both the
trimming and the collapsing step. -/
def asciiNormalize (q : String) : String :=
  String.mk (collapseRunsBy regexIsSpace false (trimBy regexIsSpace q.data))

/-! ### Lemmas about trimming and run collapsing -/

theorem regexIsSpace_subset_unicode (c : Char) (h : regexIsSpace c = true) :
    unicodeIsSpace c = true := by
  simp only [regexIsSpace, Bool.or_eq_true, decide_eq_true_eq] at h
  rcases h with ((((h | h) | h) | h) | h) <;> subst h <;> decide

theorem regexIsSpace_eq_false (c : Char) (h : unicodeIsSpace c = false) :
    regexIsSpace c = false := by
  cases hp : regexIsSpace c with
  | false => rfl
  | true => rw [regexIsSpace_subset_unicode c hp] at h; exact absurd h (by simp)

theorem head?_dropWhile_false {α : Type} (p : α → Bool) :
    ∀ (l : List α) (c : α), (l.dropWhile p).head? = some c → p c = false
  | [], c, h => by simp [List.dropWhile] at h
  | a :: l, c, h => by
    cases hp : p a with
    | true =>
      exact head?_dropWhile_false p l c (by simpa [List.dropWhile, hp] using h)
    | false =>
      simp [List.dropWhile, hp] at h
      rw [← h]
      exact hp

theorem ne_nil_of_getLast?_eq_some {α : Type} {l : List α} {c : α}
    (h : l.getLast? = some c) : l ≠ [] := by
  cases l with
  | nil => simp at h
  | cons a t => simp

theorem getLast?_cons_of_ne_nil {α : Type} (a : α) {l : List α} (h : l ≠ []) :
    (a :: l).getLast? = l.getLast? := by
  cases l with
  | nil => exact absurd rfl h
  | cons b t => exact List.getLast?_cons_cons

/-- One-step unfolding: a character outside the class is copied through. -/
theorem collapseRunsBy_cons_of_neg (p : Char → Bool) (b : Bool) {c : Char}
    (cs : List Char) (h : p c = false) :
    collapseRunsBy p b (c :: cs) = c :: collapseRunsBy p false cs := by
  cases b <;> simp [collapseRunsBy, h]

/-- One-step unfolding: inside a run, a class character is dropped. -/
theorem collapseRunsBy_cons_pos_true (p : Char → Bool) {c : Char}
    (cs : List Char) (h : p c = true) :
    collapseRunsBy p true (c :: cs) = collapseRunsBy p true cs := by
  simp [collapseRunsBy, h]

/-- One-step unfolding: a class character opening a run emits one space. -/
theorem collapseRunsBy_cons_pos_false (p : Char → Bool) {c : Char}
    (cs : List Char) (h : p c = true) :
    collapseRunsBy p false (c :: cs) = ' ' :: collapseRunsBy p true cs := by
  simp [collapseRunsBy, h]

theorem getLast?_dropWhile {α : Type} (p : α → Bool) :
    ∀ (l : List α), l.dropWhile p ≠ [] → (l.dropWhile p).getLast? = l.getLast?
  | [], h => by simp [List.dropWhile] at h
  | a :: l, h => by
    cases hp : p a with
    | true =>
      have hd : (a :: l).dropWhile p = l.dropWhile p := by simp [List.dropWhile, hp]
      rw [hd] at h ⊢
      have hl : l ≠ [] := by
        intro he; rw [he] at h; simp [List.dropWhile] at h
      rw [getLast?_dropWhile p l h, getLast?_cons_of_ne_nil a hl]
    | false =>
      simp [List.dropWhile, hp]

theorem dropWhile_eq_self_of_head {α : Type} (p : α → Bool) (l : List α)
    (h : l.head?.all (fun c => !p c) = true) : l.dropWhile p = l := by
  cases l with
  | nil => rfl
  | cons a t =>
    simp only [List.head?, Option.all_some, Bool.not_eq_true'] at h
    simp [List.dropWhile, h]

theorem trimBy_head (p : Char → Bool) (l : List Char) (c : Char)
    (h : (trimBy p l).head? = some c) : p c = false := by
  unfold trimBy at h
  rw [List.head?_reverse] at h
  have hne : (l.dropWhile p).reverse.dropWhile p ≠ [] :=
    ne_nil_of_getLast?_eq_some h
  rw [getLast?_dropWhile p _ hne, List.getLast?_reverse] at h
  exact head?_dropWhile_false p _ c h

theorem trimBy_getLast (p : Char → Bool) (l : List Char) (c : Char)
    (h : (trimBy p l).getLast? = some c) : p c = false := by
  unfold trimBy at h
  rw [List.getLast?_reverse] at h
  exact head?_dropWhile_false p _ c h

theorem trimBy_eq_self (p : Char → Bool) (l : List Char)
    (h1 : l.head?.all (fun c => !p c) = true)
    (h2 : l.getLast?.all (fun c => !p c) = true) :
    trimBy p l = l := by
  unfold trimBy
  rw [dropWhile_eq_self_of_head p l h1,
      dropWhile_eq_self_of_head p l.reverse (by rw [List.head?_reverse]; exact h2),
      List.reverse_reverse]

theorem collapseRunsBy_idem (p : Char → Bool) (hp : p ' ' = true) :
    ∀ l : List Char,
      collapseRunsBy p false (collapseRunsBy p false l) = collapseRunsBy p false l ∧
      collapseRunsBy p true (collapseRunsBy p true l) = collapseRunsBy p true l
  | [] => ⟨rfl, rfl⟩
  | c :: cs => by
    obtain ⟨ihf, iht⟩ := collapseRunsBy_idem p hp cs
    cases h : p c with
    | true =>
      constructor
      · simp [collapseRunsBy, h, hp, iht]
      · simp [collapseRunsBy, h, iht]
    | false =>
      constructor
      · simp [collapseRunsBy, h, ihf]
      · simp [collapseRunsBy, h, ihf]

theorem collapseRunsBy_getLast (p : Char → Bool) :
    ∀ (l : List Char) (c : Char), l.getLast? = some c → p c = false →
      ∀ b, (collapseRunsBy p b l).getLast? = some c
  | [], c, h, _, _ => by simp at h
  | [x], c, h, hc, b => by
    simp only [List.getLast?_singleton, Option.some.injEq] at h
    subst h
    simp [collapseRunsBy, hc]
  | x :: y :: rest, c, h, hc, b => by
    rw [List.getLast?_cons_cons] at h
    have ih := collapseRunsBy_getLast p (y :: rest) c h hc
    have hne : ∀ b', collapseRunsBy p b' (y :: rest) ≠ [] :=
      fun b' => ne_nil_of_getLast?_eq_some (ih b')
    cases hx : p x with
    | false =>
      rw [collapseRunsBy_cons_of_neg p b (y :: rest) hx,
          getLast?_cons_of_ne_nil x (hne false)]
      exact ih false
    | true =>
      cases b with
      | true =>
        rw [collapseRunsBy_cons_pos_true p (y :: rest) hx]
        exact ih true
      | false =>
        rw [collapseRunsBy_cons_pos_false p (y :: rest) hx,
            getLast?_cons_of_ne_nil ' ' (hne true)]
        exact ih true

/-- The head of the compacted character list of a query is not white space. -/
theorem compact_data_head (q : String) :
    (collapseRunsBy regexIsSpace false (trimSpaceList q.data)).head?.all
      (fun c => !unicodeIsSpace c) = true := by
  unfold trimSpaceList
  cases hT : trimBy unicodeIsSpace q.data with
  | nil => simp [collapseRunsBy]
  | cons c cs =>
    have hu : unicodeIsSpace c = false :=
      trimBy_head unicodeIsSpace q.data c (by rw [hT]; rfl)
    have hv : regexIsSpace c = false := regexIsSpace_eq_false c hu
    simp [collapseRunsBy, hv, hu]

/-- The last character of the compacted character list of a query is not
white space. -/
theorem compact_data_getLast (q : String) :
    (collapseRunsBy regexIsSpace false (trimSpaceList q.data)).getLast?.all
      (fun c => !unicodeIsSpace c) = true := by
  unfold trimSpaceList
  cases hT : (trimBy unicodeIsSpace q.data).getLast? with
  | none =>
    have : trimBy unicodeIsSpace q.data = [] := by
      cases hl : trimBy unicodeIsSpace q.data with
      | nil => rfl
      | cons a t => rw [hl] at hT; simp at hT
    rw [this]
    simp [collapseRunsBy]
  | some c =>
    have hu : unicodeIsSpace c = false := trimBy_getLast unicodeIsSpace q.data c hT
    have hv : regexIsSpace c = false := regexIsSpace_eq_false c hu
    rw [collapseRunsBy_getLast regexIsSpace _ c hT hv false]
    simp [hu]

theorem trimSpaceList_eq_self (l : List Char)
    (h1 : l.head?.all (fun c => !unicodeIsSpace c) = true)
    (h2 : l.getLast?.all (fun c => !unicodeIsSpace c) = true) :
    trimSpaceList l = l :=
  trimBy_eq_self unicodeIsSpace l h1 h2

/-- Compaction is idempotent. -/
theorem compactQueryString_idem (q : String) :
    compactQueryString (compactQueryString q) = compactQueryString q := by
  show String.mk (collapseRunsBy regexIsSpace false
      (trimSpaceList (collapseRunsBy regexIsSpace false (trimSpaceList q.data)))) = _
  rw [trimSpaceList_eq_self _ (compact_data_head q) (compact_data_getLast q),
      (collapseRunsBy_idem regexIsSpace (by decide) (trimSpaceList q.data)).1]
  rfl

/-! ### GraphQL values, variable maps and requests

`req.Var(key, value)` binds a named variable; the bound values are JSON-like
documents.  A variable map is an association list in binding order (Go maps
used as inputs are unordered; the lists below follow the source's build
order). -/

inductive GqlValue where
  | str (s : String)
  | int (n : Int)
  | bool (b : Bool)
  | arr (elems : List GqlValue)
  | obj (fields : List (String × GqlValue))

/-- A GraphQL request as produced by `Client.NewRequest` followed by the
`req.Var` calls: the query document (already compacted by `NewRequest`) and
the variable bindings. -/
structure GqlRequest where
  query : String
  vars : List (String × GqlValue)

/-- The field named `key` of the object bound to the variable `"input"`.
Used to inspect the constructed variable maps of mutations. -/
def inputField (r : GqlRequest) (key : String) : Option GqlValue :=
  match r.vars.lookup "input" with
  | some (GqlValue.obj fields) => fields.lookup key
  | _ => none

/-! ### Domain entities (types.go) -/

/-- Go `struct { Nodes []T }`, the anonymous list wrapper used inside
`Query` and `App`. -/
structure NodesOf (α : Type) where
  nodes : List α
deriving Inhabited

structure Organization where
  id : String
  name : String
  slug : String
deriving Inhabited

structure User where
  id : String
  name : String
  email : String
deriving Inhabited

structure Service where
  id : String
  protocol : String
  port : Int
  internalPort : Int
  filters : List String
deriving Inhabited

structure Allocation where
  id : String
  version : Int
  status : String
  desiredStatus : String
  region : String
  createdAt : String
deriving Inhabited

structure Task where
  id : String
  name : String
  status : String
  servicesSummary : String
  services : List Service
  allocations : List Allocation
deriving Inhabited

structure IPAddress where
  id : String
  address : String
  type : String
deriving Inhabited

/-- The anonymous `struct { Version int }` nested in `Deployment`. -/
structure DeploymentRelease where
  version : Int
deriving Inhabited

structure Deployment where
  id : String
  number : Int
  currentPhase : String
  description : String
  inProgress : Bool
  reason : String
  status : String
  trigger : String
  user : User
  createdAt : String
  updatedAt : String
  release : DeploymentRelease
deriving Inhabited

structure Secret where
  name : String
  digest : String
  createdAt : String
deriving Inhabited

structure Release where
  id : String
  version : Int
  reason : String
  description : String
  user : User
  createdAt : String
deriving Inhabited

structure Build where
  id : String
  inProgress : Bool
  status : String
  user : User
  logs : String
  createdAt : String
  updatedAt : String
deriving Inhabited

structure SignedUrls where
  getUrl : String
  putUrl : String
deriving Inhabited

structure App where
  id : String
  name : String
  status : String
  version : Int
  appUrl : String
  organization : Organization
  tasks : List Task
  secrets : List Secret
  deployments : NodesOf Deployment
  releases : NodesOf Release
  ipAddresses : NodesOf IPAddress
  builds : NodesOf Build
deriving Inhabited

/-! ### Entities and envelope fields used by the resource files but whose
declarations are not part of the sources at hand.  Their shapes are fixed by
how resource_dns.go and resource_wireguard.go use them: `data.Organization`
is compared against nil (a pointer), and the list wrappers are dereferenced
as `*data.X.Nodes` (a pointer to a slice of pointers). -/

/-- Go `struct { Nodes *[]*T }`: the nilable list wrapper dereferenced by
GetDNSZones, GetDNSRecords, GetWireGuardPeers and
GetDelegatedWireGuardTokens. -/
structure NodesPtr (α : Type) where
  nodes : Option (List (Option α))
deriving Inhabited

structure DNSRecord where
  id : String
  fqdn : String
  name : String
  type : String
  ttl : Int
  values : List String
  isApex : Bool
  isWildcard : Bool
  isSystem : Bool
  createdAt : String
  updatedAt : String
deriving Inhabited

/-- Modelled from the spec: the DNSZone entity is not declared under src/;
its fields are the ones selected by the query documents of resource_dns.go,
and `records` carries the `*data.DNSZone.Records.Nodes` wrapper dereferenced
by GetDNSRecords. -/
structure DNSZone where
  id : String
  domain : String
  createdAt : String
  records : NodesPtr DNSRecord
deriving Inhabited

structure WireGuardPeer where
  id : String
  name : String
  pubkey : String
  region : String
  peerip : String
deriving Inhabited

/-- Modelled from the spec: the organization envelope record (field
`Query.Organization`, a pointer in Go) is not declared under src/; it holds
the sub-fields read by the DNS and WireGuard accessors. -/
structure OrganizationDetail where
  dnsZones : NodesPtr DNSZone
  dnsZone : Option DNSZone
  wireGuardPeers : NodesPtr WireGuardPeer
deriving Inhabited

/-- Mutation payload `createApp { app }`. -/
structure CreateAppPayload where
  app : App
deriving Inhabited

/-- Mutation payload `{ deployment, release }` shared by setSecrets,
unsetSecrets and deployImage. -/
structure DeploymentReleasePayload where
  deployment : Deployment
  release : Release
deriving Inhabited

/-- Mutation payload `createBuild { build }`. -/
structure CreateBuildPayload where
  build : Build
deriving Inhabited

/-- The shared response envelope (`Query` in types.go): one field per
possible top-level query or mutation result, populated sparsely per call.
The trailing fields (`organization`, `dnsZone`) are the envelope sub-fields
used by resource_dns.go and resource_wireguard.go; they are nilable in Go
and therefore `Option`-typed here. -/
structure Query where
  apps : NodesOf App
  app : App
  currentUser : User
  organizations : NodesOf Organization
  build : Build
  createApp : CreateAppPayload
  setSecrets : DeploymentReleasePayload
  unsetSecrets : DeploymentReleasePayload
  deployImage : DeploymentReleasePayload
  createSignedUrl : SignedUrls
  createBuild : CreateBuildPayload
  organization : Option OrganizationDetail
  dnsZone : Option DNSZone
deriving Inhabited

/-! ### Errors and observable outcomes -/

/-- The fixed error values the client can surface: the repository's
sentinel errors plus the two message errors of GetAccessToken and a
transport-level error carried through unchanged. -/
inductive ApiError where
  /-- `ErrNotFound`. -/
  | notFound
  /-- `ErrUnknown`. -/
  | unknown
  /-- GetAccessToken: "An unknown server error occured, please try again". -/
  | serverError
  /-- GetAccessToken: "Incorrect email and password combination". -/
  | credentials
  /-- An error returned by the transport (network failure or GraphQL
  errors array), propagated as-is. -/
  | transport (msg : String)
deriving Inhabited, DecidableEq

/-- What a call to an accessor can observably do: return a value, return an
error, or crash on a nil-pointer dereference. -/
inductive Outcome (α : Type) where
  | ok (value : α)
  | err (e : ApiError)
  | nilPanic

/-! ### Request construction (types.go)

Every builder takes the process environment as a function `env` from
variable names to values (Go `os.Getenv`); a builder whose Go code never
calls `os.Getenv` simply ignores it.  Each builder performs exactly what the
source does before `c.Run`: compact the fixed document with `NewRequest` and
bind the variables with `req.Var`. -/

def GetCurrentUser_query : String := "
  query \x7b
    currentUser \x7b
      email
    \x7d
  \x7d
  "

def GetCurrentUser_request (env : String → String) : GqlRequest :=
  { query := compactQueryString GetCurrentUser_query, vars := [] }

def GetOrganizations_query : String := "
  \x7b
    organizations \x7b
      nodes \x7b
        id
        slug
        name
        type
      \x7d
    \x7d
  \x7d
  "

def GetOrganizations_request (env : String → String) : GqlRequest :=
  { query := compactQueryString GetOrganizations_query, vars := [] }

def DeployImage_query : String := "
    mutation($input: DeployImageInput!) \x7b
      deployImage(input: $input) \x7b
        release \x7b
          id
          version
          reason
          description
          user \x7b
            id
            email
            name
          \x7d
          createdAt
        \x7d
      \x7d
    \x7d
  "

def DeployImage_request (env : String → String) (appName imageTag : String) :
    GqlRequest :=
  { query := compactQueryString DeployImage_query,
    vars := [("input", GqlValue.obj
      [("appId", GqlValue.str appName), ("image", GqlValue.str imageTag)])] }

def GetApps_query : String := "
  query \x7b
    apps(type: \"container\") \x7b
      nodes \x7b
        id
        name
        organization \x7b
          slug
        \x7d
      \x7d
    \x7d
  \x7d
  "

def GetApps_request (env : String → String) : GqlRequest :=
  { query := compactQueryString GetApps_query, vars := [] }

def GetApp_query : String := "
  query ($appName: String!) \x7b
    app(name: $appName) \x7b
      id
      name
      deployed
      status
      appUrl
      organization \x7b
        slug
      \x7d
      tasks \x7b
        id
        name
        services \x7b
          protocol
          port
          internalPort
          filters
        \x7d
      \x7d
      ipAddresses \x7b
        nodes \x7b
          id
          address
          type
        \x7d
      \x7d
    \x7d
  \x7d
  "

def GetApp_request (env : String → String) (appName : String) : GqlRequest :=
  { query := compactQueryString GetApp_query,
    vars := [("appName", GqlValue.str appName)] }

def GetAppReleases_query : String := "
  query ($appName: String!, $limit: Int!) \x7b
    app(name: $appName) \x7b
      releases(first: $limit) \x7b
        nodes \x7b
          id
          version
          reason
          description
          user \x7b
            id
            email
            name
          \x7d
          createdAt
        \x7d
      \x7d
    \x7d
  \x7d
  "

def GetAppReleases_request (env : String → String) (appName : String)
    (limit : Int) : GqlRequest :=
  { query := compactQueryString GetAppReleases_query,
    vars := [("appName", GqlValue.str appName), ("limit", GqlValue.int limit)] }

structure SetSecretsInputSecret where
  key : String
  value : String

def SetSecretsInputSecret.toGql (s : SetSecretsInputSecret) : GqlValue :=
  GqlValue.obj [("key", GqlValue.str s.key), ("value", GqlValue.str s.value)]

structure SetSecretsInput where
  appId : String
  secrets : List SetSecretsInputSecret

def SetSecretsInput.toGql (i : SetSecretsInput) : GqlValue :=
  GqlValue.obj [("appId", GqlValue.str i.appId),
    ("secrets", GqlValue.arr (i.secrets.map SetSecretsInputSecret.toGql))]

def SetSecrets_query : String := "
  mutation($input: SetSecretsInput!) \x7b
    setSecrets(input: $input) \x7b
      release \x7b
        id
        version
        reason
        description
        user \x7b
          id
          email
          name
        \x7d
        createdAt
      \x7d
    \x7d
  \x7d
  "

/-- The Go source iterates over the `secrets` map in (unspecified) map
order; the embedding takes the key/value pairs as an explicit list in the
order they are appended to the input. -/
def SetSecrets_request (env : String → String) (appName : String)
    (secrets : List (String × String)) : GqlRequest :=
  { query := compactQueryString SetSecrets_query,
    vars := [("input", SetSecretsInput.toGql
      { appId := appName,
        secrets := secrets.map fun kv => { key := kv.1, value := kv.2 } })] }

structure UnsetSecretsInput where
  appId : String
  keys : List String

def UnsetSecretsInput.toGql (i : UnsetSecretsInput) : GqlValue :=
  GqlValue.obj [("appId", GqlValue.str i.appId),
    ("keys", GqlValue.arr (i.keys.map GqlValue.str))]

def UnsetSecrets_query : String := "
  mutation($input: UnsetSecretsInput!) \x7b
    unsetSecrets(input: $input) \x7b
      release \x7b
        id
        version
        reason
        description
        user \x7b
          id
          email
          name
        \x7d
        createdAt
      \x7d
    \x7d
  \x7d
  "

def UnsetSecrets_request (env : String → String) (appName : String)
    (keys : List String) : GqlRequest :=
  { query := compactQueryString UnsetSecrets_query,
    vars := [("input", UnsetSecretsInput.toGql { appId := appName, keys := keys })] }

def GetAppSecrets_query : String := "
  query ($appName: String!) \x7b
    app(name: $appName) \x7b
      secrets \x7b
        name
        digest
        createdAt
      \x7d
    \x7d
  \x7d
  "

def GetAppSecrets_request (env : String → String) (appName : String) :
    GqlRequest :=
  { query := compactQueryString GetAppSecrets_query,
    vars := [("appName", GqlValue.str appName)] }

structure CreateAppInput where
  organizationId : String
  runtime : String
  name : String

def CreateAppInput.toGql (i : CreateAppInput) : GqlValue :=
  GqlValue.obj [("organizationId", GqlValue.str i.organizationId),
    ("runtime", GqlValue.str i.runtime), ("name", GqlValue.str i.name)]

def CreateApp_query : String := "
  mutation($input: CreateAppInput!) \x7b
    createApp(input: $input) \x7b
      app \x7b
        id
        name
        organization \x7b
          slug
        \x7d
      \x7d
    \x7d
  \x7d
  "

def CreateApp_request (env : String → String) (name orgId : String) :
    GqlRequest :=
  { query := compactQueryString CreateApp_query,
    vars := [("input", CreateAppInput.toGql
      { name := name, runtime := "FIRECRACKER", organizationId := orgId })] }

def GetAppWithTasks_query : String := "
  query($appName: String!) \x7b
    app(name: $appName) \x7b
      deployed
      tasks \x7b
        id
        name
        status
        servicesSummary
        allocations \x7b
          id
          version
          status
          desiredStatus
          region
          createdAt
        \x7d
      \x7d
    \x7d
  \x7d
  "

def GetAppWithTasks_request (env : String → String) (appName : String) :
    GqlRequest :=
  { query := compactQueryString GetAppWithTasks_query,
    vars := [("appName", GqlValue.str appName)] }

def CreateSignedUrls_query : String := "
  mutation($appId: ID!, $filename: String!) \x7b
    createSignedUrl(appId: $appId, filename: $filename) \x7b
      getUrl
      putUrl
    \x7d
  \x7d
  "

def CreateSignedUrls_request (env : String → String)
    (appId filename : String) : GqlRequest :=
  { query := compactQueryString CreateSignedUrls_query,
    vars := [("appId", GqlValue.str appId), ("filename", GqlValue.str filename)] }

def CreateBuild_query : String := "
  mutation($appId: ID!, $sourceUrl: String!, $sourceType: UrlSource!) \x7b
    createBuild(appId: $appId, sourceUrl: $sourceUrl, sourceType: $sourceType) \x7b
      build \x7b
        id
        inProgress
        status
        user \x7b
          id
          name
          email
        \x7d
        createdAt
        updatedAt
      \x7d
    \x7d
  \x7d
  "

def CreateBuild_request (env : String → String)
    (appId sourceUrl sourceType : String) : GqlRequest :=
  { query := compactQueryString CreateBuild_query,
    vars := [("appId", GqlValue.str appId),
      ("sourceUrl", GqlValue.str sourceUrl),
      ("sourceType", GqlValue.str sourceType)] }

def ListBuilds_query : String := "
  query($appName: String!) \x7b
    app(name: $appName) \x7b
      builds \x7b
        nodes \x7b
          id
          inProgress
          status
          user \x7b
            id
            name
            email
          \x7d
          createdAt
          updatedAt
        \x7d
      \x7d
    \x7d
  \x7d
  "

def ListBuilds_request (env : String → String) (appName : String) :
    GqlRequest :=
  { query := compactQueryString ListBuilds_query,
    vars := [("appName", GqlValue.str appName)] }

def GetBuild_query : String := "
  query($id: ID!) \x7b
    build: node(id: $id) \x7b
      id
      __typename
      ... on Build \x7b
        inProgress
        status
        logs
        user \x7b
          id
          name
          email
        \x7d
        createdAt
        updatedAt
      \x7d
    \x7d
  \x7d
  "

def GetBuild_request (env : String → String) (buildId : String) : GqlRequest :=
  { query := compactQueryString GetBuild_query,
    vars := [("id", GqlValue.str buildId)] }

/-! ### Request construction (resource_dns.go) -/

def GetDNSZones_query : String := "
  query($slug: String!) \x7b
    organization(slug: $slug) \x7b
      dnsZones \x7b
        nodes \x7b
          id
          domain
          createdAt
        \x7d
      \x7d
    \x7d
  \x7d
  "

def GetDNSZones_request (env : String → String) (slug : String) : GqlRequest :=
  { query := compactQueryString GetDNSZones_query,
    vars := [("slug", GqlValue.str slug)] }

def FindDNSZone_query : String := "
  query($slug: String!, $domain: String!) \x7b
    organization(slug: $slug) \x7b
      dnsZone(domain: $domain) \x7b
        id
        domain
        createdAt
        organization \x7b
          id
          slug
          name
        \x7d
      \x7d
    \x7d
  \x7d
  "

def FindDNSZone_request (env : String → String)
    (organizationSlug domain : String) : GqlRequest :=
  { query := compactQueryString FindDNSZone_query,
    vars := [("slug", GqlValue.str organizationSlug),
      ("domain", GqlValue.str domain)] }

def CreateDNSZone_query : String := "
  mutation($input: CreateDnsZoneInput!) \x7b
    createDnsZone(input: $input) \x7b
      zone \x7b
        id
        domain
        createdAt
      \x7d
    \x7d
  \x7d
  "

def CreateDNSZone_request (env : String → String)
    (organizationID domain : String) : GqlRequest :=
  { query := compactQueryString CreateDNSZone_query,
    vars := [("input", GqlValue.obj
      [("organizationId", GqlValue.str organizationID),
       ("domain", GqlValue.str domain)])] }

def DeleteDNSZone_query : String := "
  mutation($input: DeleteDnsZoneInput!) \x7b
    deleteDnsZone(input: $input) \x7b
      clientMutationId
    \x7d
  \x7d
  "

def DeleteDNSZone_request (env : String → String) (zoneID : String) :
    GqlRequest :=
  { query := compactQueryString DeleteDNSZone_query,
    vars := [("input", GqlValue.obj [("dnsZoneId", GqlValue.str zoneID)])] }

def GetDNSRecords_query : String := "
  query($zoneId: ID!) \x7b
    dnsZone: node(id: $zoneId) \x7b
      ... on DnsZone \x7b
        records \x7b
          nodes \x7b
            id
            fqdn
            name
            type
            ttl
            values
            isApex
            isWildcard
            isSystem
            createdAt
            updatedAt
          \x7d
        \x7d
      \x7d
    \x7d
  \x7d
  "

def GetDNSRecords_request (env : String → String) (zoneID : String) :
    GqlRequest :=
  { query := compactQueryString GetDNSRecords_query,
    vars := [("zoneId", GqlValue.str zoneID)] }

def ExportDNSRecords_query : String := "
  mutation($input: ExportDnsZoneInput!) \x7b
    exportDnsZone(input: $input) \x7b
      contents
    \x7d
  \x7d
  "

def ExportDNSRecords_request (env : String → String) (zoneID : String) :
    GqlRequest :=
  { query := compactQueryString ExportDNSRecords_query,
    vars := [("input", GqlValue.obj [("dnsZoneId", GqlValue.str zoneID)])] }

def ImportDNSRecords_query : String := "
  mutation($input: ImportDnsZoneInput!) \x7b
    importDnsZone(input: $input) \x7b
      results \x7b
        created
        deleted
        updated
        skipped
        type
      \x7d
    \x7d
  \x7d
  "

def ImportDNSRecords_request (env : String → String)
    (zoneID zonefile : String) : GqlRequest :=
  { query := compactQueryString ImportDNSRecords_query,
    vars := [("input", GqlValue.obj
      [("dnsZoneId", GqlValue.str zoneID),
       ("zonefile", GqlValue.str zonefile)])] }

/-! ### Request construction (resource_platform.go) -/

def PlatformRegions_query : String := "
  query \x7b
    platform \x7b
      requestRegion
      regions \x7b
        name
        code
        gatewayAvailable
      \x7d
    \x7d
  \x7d
  "

def PlatformRegions_request (env : String → String) : GqlRequest :=
  { query := compactQueryString PlatformRegions_query, vars := [] }

def PlatformRegionsAll_query : String := "
  query \x7b
    platform \x7b
      regions \x7b
        name
        code
        latitude
        longitude
        gatewayAvailable
      \x7d
    \x7d
  \x7d
  "

def PlatformRegionsAll_request (env : String → String) : GqlRequest :=
  { query := compactQueryString PlatformRegionsAll_query, vars := [] }

def PlatformVMSizes_query : String := "
  query \x7b
    platform \x7b
      vmSizes \x7b
        name
        cpuCores
        memoryGb
        memoryMb
        priceMonth
        priceSecond
      \x7d
    \x7d
  \x7d
  "

def PlatformVMSizes_request (env : String → String) : GqlRequest :=
  { query := compactQueryString PlatformVMSizes_query, vars := [] }

/-! ### Request construction (resource_ssh.go) -/

def GetLoggedCertificates_query : String := "
query($slug: String!) \x7b
  organization(slug: $slug) \x7b
    loggedCertificates \x7b
      nodes \x7b
        root
        cert
      \x7d
    \x7d
  \x7d
\x7d
"

def GetLoggedCertificates_request (env : String → String) (slug : String) :
    GqlRequest :=
  { query := compactQueryString GetLoggedCertificates_query,
    vars := [("slug", GqlValue.str slug)] }

def EstablishSSHKey_query : String := "
mutation($input: EstablishSSHKeyInput!) \x7b
  establishSshKey(input: $input) \x7b
    certificate
  \x7d
\x7d
"

def EstablishSSHKey_request (env : String → String) (org : Organization)
    (override : Bool) : GqlRequest :=
  { query := compactQueryString EstablishSSHKey_query,
    vars := [("input", GqlValue.obj
      [("organizationId", GqlValue.str org.id),
       ("override", GqlValue.bool override)])] }

def IssueSSHCertificate_query : String := "
mutation($input: IssueCertificateInput!) \x7b
  issueCertificate(input: $input) \x7b
    certificate, key
  \x7d
\x7d
"

/-- The two optional parameters are Go nil-able pointers; a key is added to
the input map only when the pointer is non-nil. -/
def IssueSSHCertificate_request (env : String → String) (org : Organization)
    (email : String) (username : Option String) (valid_hours : Option Int) :
    GqlRequest :=
  let inputs : List (String × GqlValue) :=
    [("organizationId", GqlValue.str org.id), ("email", GqlValue.str email)]
  let inputs := match username with
    | some u => inputs ++ [("username", GqlValue.str u)]
    | none => inputs
  let inputs := match valid_hours with
    | some h => inputs ++ [("validHours", GqlValue.int h)]
    | none => inputs
  { query := compactQueryString IssueSSHCertificate_query,
    vars := [("input", GqlValue.obj inputs)] }

/-! ### Request construction (resource_wireguard.go) -/

def GetWireGuardPeerStatus_query : String := "
query($slug: String!, $name: String!) \x7b
  organization(slug: $slug) \x7b
    wireGuardPeer(name: $name) \x7b
      gatewayStatus
    \x7d
  \x7d
\x7d
"

def GetWireGuardPeerStatus_request (env : String → String)
    (slug name : String) : GqlRequest :=
  { query := compactQueryString GetWireGuardPeerStatus_query,
    vars := [("slug", GqlValue.str slug), ("name", GqlValue.str name)] }

def GetWireGuardPeer_query : String := "
query($slug: String!, $name: String!) \x7b
  organization(slug: $slug) \x7b
    wireGuardPeer(name: $name) \x7b
      id
      name
      pubkey
      region
      peerip
    \x7d
  \x7d
\x7d
"

def GetWireGuardPeer_request (env : String → String) (slug name : String) :
    GqlRequest :=
  { query := compactQueryString GetWireGuardPeer_query,
    vars := [("slug", GqlValue.str slug), ("name", GqlValue.str name)] }

def GetWireGuardPeers_query : String := "
query($slug: String!) \x7b
  organization(slug: $slug) \x7b
    wireGuardPeers \x7b
      nodes \x7b
        id
        name
        pubkey
        region
        peerip
      \x7d
    \x7d
  \x7d
\x7d
"

def GetWireGuardPeers_request (env : String → String) (slug : String) :
    GqlRequest :=
  { query := compactQueryString GetWireGuardPeers_query,
    vars := [("slug", GqlValue.str slug)] }

def CreateWireGuardPeer_query : String := "
mutation($input: AddWireGuardPeerInput!) \x7b
  addWireGuardPeer(input: $input) \x7b
    peerip
    endpointip
    pubkey
  \x7d
\x7d
"

/-- The only builder that reads the process environment: `nats` is true
exactly when the `WG_NATS` environment variable is non-empty, and the
`region` key is added only when the region argument is non-empty. -/
def CreateWireGuardPeer_request (env : String → String) (org : Organization)
    (region name pubkey : String) : GqlRequest :=
  let nats : Bool := env "WG_NATS" != ""
  let inputs : List (String × GqlValue) :=
    [("organizationId", GqlValue.str org.id), ("name", GqlValue.str name),
     ("pubkey", GqlValue.str pubkey), ("nats", GqlValue.bool nats)]
  let inputs := if region != "" then inputs ++ [("region", GqlValue.str region)]
    else inputs
  { query := compactQueryString CreateWireGuardPeer_query,
    vars := [("input", GqlValue.obj inputs)] }

def RemoveWireGuardPeer_query : String := "
mutation($input: RemoveWireGuardPeerInput!) \x7b
  removeWireGuardPeer(input: $input) \x7b
    organization \x7b
      id
    \x7d
  \x7d
\x7d
"

def RemoveWireGuardPeer_request (env : String → String) (org : Organization)
    (name : String) : GqlRequest :=
  { query := compactQueryString RemoveWireGuardPeer_query,
    vars := [("input", GqlValue.obj
      [("organizationId", GqlValue.str org.id), ("name", GqlValue.str name)])] }

def CreateDelegatedWireGuardToken_query : String := "
mutation($input: CreateDelegatedWireGuardTokenInput!) \x7b
  createDelegatedWireGuardToken(input: $input) \x7b
    token
  \x7d
\x7d
"

def CreateDelegatedWireGuardToken_request (env : String → String)
    (org : Organization) (name : String) : GqlRequest :=
  { query := compactQueryString CreateDelegatedWireGuardToken_query,
    vars := [("input", GqlValue.obj
      [("organizationId", GqlValue.str org.id), ("name", GqlValue.str name)])] }

def DeleteDelegatedWireGuardToken_query : String := "
mutation($input: DeleteDelegatedWireGuardTokenInput!) \x7b
  deleteDelegatedWireGuardToken(input: $input) \x7b
    token
  \x7d
\x7d
"

/-- Both `name` and `token` are nil-able pointers; when `name` is nil the
source dereferences `token` unconditionally, which crashes if it is nil
too. -/
def DeleteDelegatedWireGuardToken_request (env : String → String)
    (org : Organization) (name token : Option String) :
    Outcome GqlRequest :=
  let base : List (String × GqlValue) := [("organizationId", GqlValue.str org.id)]
  let mk : List (String × GqlValue) → GqlRequest := fun input =>
    { query := compactQueryString DeleteDelegatedWireGuardToken_query,
      vars := [("input", GqlValue.obj input)] }
  match name with
  | some n => Outcome.ok (mk (base ++ [("name", GqlValue.str n)]))
  | none =>
    match token with
    | some t => Outcome.ok (mk (base ++ [("token", GqlValue.str t)]))
    | none => Outcome.nilPanic

def GetDelegatedWireGuardTokens_query : String := "
query($slug: String!) \x7b
  organization(slug: $slug) \x7b
    delegatedWireGuardTokens \x7b
      nodes \x7b
        name
      \x7d
    \x7d
  \x7d
\x7d
"

def GetDelegatedWireGuardTokens_request (env : String → String)
    (slug : String) : GqlRequest :=
  { query := compactQueryString GetDelegatedWireGuardTokens_query,
    vars := [("slug", GqlValue.str slug)] }

def ClosestWireguardGatewayRegion_query : String := "
    query \x7b
      nearestRegion(wireguardGateway: true) \x7b
        code
        name
        gatewayAvailable
      \x7d
    \x7d
"

def ClosestWireguardGatewayRegion_request (env : String → String) :
    GqlRequest :=
  { query := compactQueryString ClosestWireguardGatewayRegion_query, vars := [] }

def ValidateWireGuardPeers_query : String := "
mutation($input: ValidateWireGuardPeersInput!) \x7b
  validateWireGuardPeers(input: $input) \x7b
    invalidPeerIps
  \x7d
\x7d
"

def ValidateWireGuardPeers_request (env : String → String)
    (peerIPs : List String) : GqlRequest :=
  { query := compactQueryString ValidateWireGuardPeers_query,
    vars := [("input", GqlValue.obj
      [("peerIps", GqlValue.arr (peerIPs.map GqlValue.str))])] }

/-! ### Request construction (further source files with unknown names) -/

/-- `DeployImageInput` is not declared in the sources at hand; its payload
is treated as an opaque JSON document. -/
def DeployImageByInput_request (env : String → String) (input : GqlValue) :
    GqlRequest :=
  { query := compactQueryString DeployImage_query, vars := [("input", input)] }

def GetDeploymentStatus_query : String := "
  query ($appName: String!, $deploymentId: ID!) \x7b
    app(name: $appName) \x7b
      deploymentStatus(id: $deploymentId) \x7b
        id
        inProgress
        status
        successful
        description
        version
        desiredCount
        placedCount
        healthyCount
        unhealthyCount
        allocations \x7b
          id
          idShort
          status
          region
          desiredStatus
          version
          healthy
          failed
          canary
          checks \x7b
            status
            output
            name
            serviceName
          \x7d
          events \x7b
            timestamp
            type
            message
          \x7d
        \x7d
      \x7d
    \x7d
  \x7d
  "

def GetDeploymentStatus_request (env : String → String)
    (appName deploymentID : String) : GqlRequest :=
  { query := compactQueryString GetDeploymentStatus_query,
    vars := [("appName", GqlValue.str appName),
      ("deploymentId", GqlValue.str deploymentID)] }

def GetConfig_query : String := "
    query($appName: String!) \x7b
      app(name: $appName) \x7b
        config \x7b
          definition
        \x7d
      \x7d
    \x7d
  "

def GetConfig_request (env : String → String) (appName : String) :
    GqlRequest :=
  { query := compactQueryString GetConfig_query,
    vars := [("appName", GqlValue.str appName)] }

/-- `Definition` is not declared in the sources at hand; an app definition
is treated as an opaque JSON document. -/
def ParseConfig_query : String := "
    query($appName: String!, $definition: JSON!) \x7b
      app(name: $appName) \x7b
        parseConfig(definition: $definition) \x7b
          definition
          valid
          errors
          services \x7b
            description
          \x7d
        \x7d
      \x7d
    \x7d
  "

def ParseConfig_request (env : String → String) (appName : String)
    (definition : GqlValue) : GqlRequest :=
  { query := compactQueryString ParseConfig_query,
    vars := [("appName", GqlValue.str appName), ("definition", definition)] }

def ValidateConfig_query : String := "
    query($definition: JSON!) \x7b
      validateConfig(definition: $definition) \x7b
        definition
        valid
        errors
      \x7d
    \x7d
  "

/-- The source takes `appName` but binds only `definition`. -/
def ValidateConfig_request (env : String → String) (appName : String)
    (definition : GqlValue) : GqlRequest :=
  { query := compactQueryString ValidateConfig_query,
    vars := [("definition", definition)] }

/-! ### Response projection

Each `_result` function is the part of the source operation that runs after
`c.Run` / `c.RunWithContext` returned without error; each `_run` function
adds the uniform `if err != nil { return nil, err }` propagation in front of
it.  A Go nil-pointer dereference is `Outcome.nilPanic`. -/

/-- GetApps: `return data.Apps.Nodes, nil`. -/
def GetApps_result (data : Query) : List App := data.apps.nodes

def GetApps_run (r : Except ApiError Query) : Outcome (List App) :=
  match r with
  | Except.error e => Outcome.err e
  | Except.ok data => Outcome.ok (GetApps_result data)

/-- FindDNSZone: `if data.Organization == nil || data.Organization.DNSZone
== nil { return nil, ErrNotFound }; return data.Organization.DNSZone, nil`. -/
def FindDNSZone_result (data : Query) : Outcome DNSZone :=
  match data.organization with
  | none => Outcome.err ApiError.notFound
  | some org =>
    match org.dnsZone with
    | none => Outcome.err ApiError.notFound
    | some zone => Outcome.ok zone

def FindDNSZone_run (r : Except ApiError Query) : Outcome DNSZone :=
  match r with
  | Except.error e => Outcome.err e
  | Except.ok data => FindDNSZone_result data

/-- GetDNSRecords: `if data.DNSZone == nil { return nil, ErrNotFound };
return *data.DNSZone.Records.Nodes, nil` — the second line dereferences the
`Nodes` pointer without a nil check. -/
def GetDNSRecords_result (data : Query) : Outcome (List (Option DNSRecord)) :=
  match data.dnsZone with
  | none => Outcome.err ApiError.notFound
  | some zone =>
    match zone.records.nodes with
    | none => Outcome.nilPanic
    | some records => Outcome.ok records

def GetDNSRecords_run (r : Except ApiError Query) :
    Outcome (List (Option DNSRecord)) :=
  match r with
  | Except.error e => Outcome.err e
  | Except.ok data => GetDNSRecords_result data

/-- GetDNSZones: `return *data.Organization.DNSZones.Nodes, nil` — no nil
check on either the organization pointer or the nodes pointer. -/
def GetDNSZones_result (data : Query) : Outcome (List (Option DNSZone)) :=
  match data.organization with
  | none => Outcome.nilPanic
  | some org =>
    match org.dnsZones.nodes with
    | none => Outcome.nilPanic
    | some zones => Outcome.ok zones

def GetDNSZones_run (r : Except ApiError Query) :
    Outcome (List (Option DNSZone)) :=
  match r with
  | Except.error e => Outcome.err e
  | Except.ok data => GetDNSZones_result data

/-- GetWireGuardPeers: `return *data.Organization.WireGuardPeers.Nodes, nil`
— no nil check on either pointer. -/
def GetWireGuardPeers_result (data : Query) :
    Outcome (List (Option WireGuardPeer)) :=
  match data.organization with
  | none => Outcome.nilPanic
  | some org =>
    match org.wireGuardPeers.nodes with
    | none => Outcome.nilPanic
    | some peers => Outcome.ok peers

def GetWireGuardPeers_run (r : Except ApiError Query) :
    Outcome (List (Option WireGuardPeer)) :=
  match r with
  | Except.error e => Outcome.err e
  | Except.ok data => GetWireGuardPeers_result data

/-! ### GetAccessToken (types.go, plain REST)

The decoded body is `map[string]map[string]map[string]string`; the decode
error is discarded, so a malformed body simply leaves the map nil, which is
modelled as `none`.  Indexing a nil Go map yields the zero value, hence the
`getD` defaults below. -/

/-- The shape of the decoded session response body. -/
def SessionBody : Type := List (String × List (String × List (String × String)))

/-- `result["data"]["attributes"]["access_token"]` with Go zero-value
semantics for missing keys and nil maps. -/
def sessionAccessToken (decoded : Option SessionBody) : String :=
  let result : SessionBody := decoded.getD []
  ((((result.lookup "data").getD []).lookup "attributes").getD []
    |>.lookup "access_token").getD ""

/-- GetAccessToken after the POST returned a response: the status checks in
source order, then the decode whose error is ignored. -/
def GetAccessToken_handle (statusCode : Nat) (decoded : Option SessionBody) :
    Except ApiError String :=
  if statusCode ≥ 500 then Except.error ApiError.serverError
  else if statusCode ≥ 400 then Except.error ApiError.credentials
  else Except.ok (sessionAccessToken decoded)

/-! ## Claim theorems -/

/-- C1: for every transport-successful call, if the relevant envelope
sub-field is nil — `organization`/`dnsZone` for FindDNSZone, the `dnsZone`
node for GetDNSRecords — the operation returns the not-found error, not a
zero value. -/
theorem findDNSZone_getDNSRecords_nil_is_notFound (data : Query) :
    (data.organization.bind OrganizationDetail.dnsZone = none →
      FindDNSZone_run (Except.ok data) = Outcome.err ApiError.notFound)
  ∧ (data.dnsZone = none →
      GetDNSRecords_run (Except.ok data) = Outcome.err ApiError.notFound) := by
  constructor
  · intro h
    cases ho : data.organization with
    | none => simp [FindDNSZone_run, FindDNSZone_result, ho]
    | some org =>
      rw [ho, Option.some_bind] at h
      simp [FindDNSZone_run, FindDNSZone_result, ho, h]
  · intro h
    simp [GetDNSRecords_run, GetDNSRecords_result, h]

/-- Witness for C1 at a concrete envelope whose nilable sub-fields are all
nil. -/
theorem findDNSZone_getDNSRecords_nil_is_notFound_witness :
    FindDNSZone_run (Except.ok (default : Query)) = Outcome.err ApiError.notFound
  ∧ GetDNSRecords_run (Except.ok (default : Query)) = Outcome.err ApiError.notFound :=
  ⟨(findDNSZone_getDNSRecords_nil_is_notFound (default : Query)).1 rfl,
   (findDNSZone_getDNSRecords_nil_is_notFound (default : Query)).2 rfl⟩

/-- C2: when the transport call succeeds but the `nodes` pointer of the
list sub-field is nil, GetWireGuardPeers and GetDNSZones dereference the
nil pointer — a crash, not an error and not an empty list. -/
theorem getWireGuardPeers_getDNSZones_nil_nodes_crash (data : Query)
    (org : OrganizationDetail) (h : data.organization = some org) :
    (org.wireGuardPeers.nodes = none →
      GetWireGuardPeers_run (Except.ok data) = Outcome.nilPanic)
  ∧ (org.dnsZones.nodes = none →
      GetDNSZones_run (Except.ok data) = Outcome.nilPanic) := by
  constructor
  · intro hn
    simp [GetWireGuardPeers_run, GetWireGuardPeers_result, h, hn]
  · intro hn
    simp [GetDNSZones_run, GetDNSZones_result, h, hn]

/-- Witness for C2 at a concrete envelope carrying an organization whose
list wrappers have nil `nodes` pointers. -/
theorem getWireGuardPeers_getDNSZones_nil_nodes_crash_witness :
    GetWireGuardPeers_run (Except.ok
      { (default : Query) with organization := some default }) = Outcome.nilPanic
  ∧ GetDNSZones_run (Except.ok
      { (default : Query) with organization := some default }) = Outcome.nilPanic :=
  ⟨(getWireGuardPeers_getDNSZones_nil_nodes_crash
      { (default : Query) with organization := some default } default rfl).1 rfl,
   (getWireGuardPeers_getDNSZones_nil_nodes_crash
      { (default : Query) with organization := some default } default rfl).2 rfl⟩

/-- C3: the variable map of CreateApp always binds `runtime` to
`"FIRECRACKER"` inside the `input` object, for every `name` and `orgId`. -/
theorem createApp_always_firecracker (env : String → String)
    (name orgId : String) :
    inputField (CreateApp_request env name orgId) "runtime"
      = some (GqlValue.str "FIRECRACKER") := rfl

/-- C4: GetAccessToken maps a 5xx status to the generic server error, a
4xx status (401 included) to the credential-mismatch error without ever
reading the body, and a status below 400 to decoding the body for the
access token. -/
theorem getAccessToken_status_mapping (status : Nat)
    (decoded : Option SessionBody) :
    (500 ≤ status →
      GetAccessToken_handle status decoded = Except.error ApiError.serverError)
  ∧ (400 ≤ status → status < 500 →
      GetAccessToken_handle status decoded = Except.error ApiError.credentials)
  ∧ (status < 400 →
      GetAccessToken_handle status decoded
        = Except.ok (sessionAccessToken decoded)) := by
  refine ⟨fun h => ?_, fun h1 h2 => ?_, fun h => ?_⟩
  · simp [GetAccessToken_handle, h]
  · have h5 : ¬ (500 ≤ status) := by omega
    simp [GetAccessToken_handle, h5, h1]
  · have h5 : ¬ (500 ≤ status) := by omega
    have h4 : ¬ (400 ≤ status) := by omega
    simp [GetAccessToken_handle, h5, h4]

/-- Witness for C4 at statuses 500, 401 and 200. -/
theorem getAccessToken_status_mapping_witness :
    GetAccessToken_handle 500 none = Except.error ApiError.serverError
  ∧ GetAccessToken_handle 401 none = Except.error ApiError.credentials
  ∧ GetAccessToken_handle 200 none = Except.ok (sessionAccessToken none) :=
  ⟨(getAccessToken_status_mapping 500 none).1 (by decide),
   (getAccessToken_status_mapping 401 none).2.1 (by decide) (by decide),
   (getAccessToken_status_mapping 200 none).2.2 (by decide)⟩

/-- C9: a successful GetApps call returns exactly the server's `nodes`
list, unwrapped, in received order — no reordering, filtering or
duplication. -/
theorem getApps_returns_nodes_in_order (data : Query) :
    GetApps_run (Except.ok data) = Outcome.ok data.apps.nodes := rfl

/-- C10: for a sub-400 status, a body that fails to decode (`none`) — or
decodes to anything lacking the `data.attributes.access_token` path —
makes GetAccessToken return the empty string with no error; the decode
error is silently discarded. -/
theorem getAccessToken_silent_decode_discard (status : Nat)
    (h : status < 400) :
    GetAccessToken_handle status none = Except.ok ""
  ∧ (∀ body : SessionBody, sessionAccessToken (some body) = "" →
      GetAccessToken_handle status (some body) = Except.ok "") := by
  have h5 : ¬ (500 ≤ status) := by omega
  have h4 : ¬ (400 ≤ status) := by omega
  constructor
  · simp [GetAccessToken_handle, h5, h4, sessionAccessToken]
  · intro body hb
    simp [GetAccessToken_handle, h5, h4, hb]

/-- Witness for C10 at status 200 with a failed decode and with a decoded
body missing the token path. -/
theorem getAccessToken_silent_decode_discard_witness :
    GetAccessToken_handle 200 none = Except.ok ""
  ∧ GetAccessToken_handle 200 (some [("data", [])]) = Except.ok "" :=
  ⟨(getAccessToken_silent_decode_discard 200 (by decide)).1,
   (getAccessToken_silent_decode_discard 200 (by decide)).2 [("data", [])] rfl⟩

/-- C5: each optional parameter — `username` and `valid_hours` of
IssueSSHCertificate, `region` of CreateWireGuardPeer — is absent from the
constructed input object whenever that parameter is omitted, whatever the
other optional parameter is (no key at all), and bound to the provided
value when present. -/
theorem optional_params_omitted_or_bound :
    (∀ (env : String → String) (org : Organization) (email : String)
        (vh : Option Int),
        inputField (IssueSSHCertificate_request env org email none vh)
          "username" = none)
  ∧ (∀ (env : String → String) (org : Organization) (email : String)
        (un : Option String),
        inputField (IssueSSHCertificate_request env org email un none)
          "validHours" = none)
  ∧ (∀ (env : String → String) (org : Organization) (email u : String)
        (vh : Option Int),
        inputField (IssueSSHCertificate_request env org email (some u) vh)
          "username" = some (GqlValue.str u))
  ∧ (∀ (env : String → String) (org : Organization) (email : String)
        (un : Option String) (vh : Int),
        inputField (IssueSSHCertificate_request env org email un (some vh))
          "validHours" = some (GqlValue.int vh))
  ∧ (∀ (env : String → String) (org : Organization) (name pubkey : String),
        inputField (CreateWireGuardPeer_request env org "" name pubkey)
          "region" = none)
  ∧ (∀ (env : String → String) (org : Organization)
        (region name pubkey : String), region ≠ "" →
        inputField (CreateWireGuardPeer_request env org region name pubkey)
          "region" = some (GqlValue.str region)) := by
  refine ⟨?_, ?_, ?_, ?_, ?_, ?_⟩
  · intro env org email vh
    cases vh <;> rfl
  · intro env org email un
    cases un <;> rfl
  · intro env org email u vh
    cases vh <;> rfl
  · intro env org email un vh
    cases un <;> rfl
  · intro env org name pubkey
    rfl
  · intro env org region name pubkey h
    have hb : (region != "") = true := bne_iff_ne.mpr h
    simp only [CreateWireGuardPeer_request, hb, if_true]
    rfl

/-- Witness for C5 with the region parameter provided. -/
theorem optional_params_omitted_or_bound_witness :
    inputField (CreateWireGuardPeer_request (fun _ => "") default "ord" "p" "k")
      "region" = some (GqlValue.str "ord") :=
  optional_params_omitted_or_bound.2.2.2.2.2 (fun _ => "") default "ord" "p" "k"
    (by decide)

/-- C8 counterexample: on the input `"\x0b" ++ "a" ++ "\x0b" ++ "b"`
(vertical tabs around an internal run), the code's result `"a\x0bb"` matches
neither reading of the claim's uniform-whitespace normalization: with
whitespace = Unicode white space the claim demands `"a b"`, and with
whitespace = the `\s` class the claim demands the leading vertical tab be
kept.  The claim as stated is therefore false: the trimming step and the
collapsing step use different whitespace classes. -/
theorem compactQueryString_vtab_counterexample :
    ¬ (compactQueryString (String.mk ['\x0b', 'a', '\x0b', 'b'])
        = specNormalize (String.mk ['\x0b', 'a', '\x0b', 'b']))
  ∧ ¬ (compactQueryString (String.mk ['\x0b', 'a', '\x0b', 'b'])
        = asciiNormalize (String.mk ['\x0b', 'a', '\x0b', 'b'])) := by
  constructor <;> decide

/-- C8 (amended): the string used for the request equals the input with
surrounding Unicode white space trimmed and every maximal run of characters
of the regexp class `\s` = `[\t\n\x0c\r ]` replaced by a single space; the
normalization is idempotent and its result has no leading or trailing
white space. -/
theorem compactQueryString_normalization (q : String) :
    compactQueryString q
      = String.mk (collapseRunsBy regexIsSpace false (trimBy unicodeIsSpace q.data))
  ∧ compactQueryString (compactQueryString q) = compactQueryString q
  ∧ (compactQueryString q).data.head?.all (fun c => !unicodeIsSpace c) = true
  ∧ (compactQueryString q).data.getLast?.all (fun c => !unicodeIsSpace c) = true :=
  ⟨rfl, compactQueryString_idem q, compact_data_head q, compact_data_getLast q⟩

/-- C6: CreateWireGuardPeer is the only request builder that reads the
process environment: a non-empty `WG_NATS` value makes it bind the boolean
variable `nats = true` in the mutation input (an empty value binds
`nats = false`), and every other operation's constructed request is
unchanged under any change of the environment. -/
theorem createWireGuardPeer_only_env_branch :
    (∀ (env : String → String) (org : Organization)
        (region name pubkey : String), env "WG_NATS" ≠ "" →
        inputField (CreateWireGuardPeer_request env org region name pubkey)
          "nats" = some (GqlValue.bool true))
  ∧ (∀ (env : String → String) (org : Organization)
        (region name pubkey : String), env "WG_NATS" = "" →
        inputField (CreateWireGuardPeer_request env org region name pubkey)
          "nats" = some (GqlValue.bool false))
  ∧ (∀ env env' : String → String,
      GetCurrentUser_request env = GetCurrentUser_request env')
  ∧ (∀ env env' : String → String,
      GetOrganizations_request env = GetOrganizations_request env')
  ∧ (∀ (env env' : String → String) (a b : String),
      DeployImage_request env a b = DeployImage_request env' a b)
  ∧ (∀ env env' : String → String, GetApps_request env = GetApps_request env')
  ∧ (∀ (env env' : String → String) (a : String),
      GetApp_request env a = GetApp_request env' a)
  ∧ (∀ (env env' : String → String) (a : String) (l : Int),
      GetAppReleases_request env a l = GetAppReleases_request env' a l)
  ∧ (∀ (env env' : String → String) (a : String) (s : List (String × String)),
      SetSecrets_request env a s = SetSecrets_request env' a s)
  ∧ (∀ (env env' : String → String) (a : String) (ks : List String),
      UnsetSecrets_request env a ks = UnsetSecrets_request env' a ks)
  ∧ (∀ (env env' : String → String) (a : String),
      GetAppSecrets_request env a = GetAppSecrets_request env' a)
  ∧ (∀ (env env' : String → String) (n o : String),
      CreateApp_request env n o = CreateApp_request env' n o)
  ∧ (∀ (env env' : String → String) (a : String),
      GetAppWithTasks_request env a = GetAppWithTasks_request env' a)
  ∧ (∀ (env env' : String → String) (a f : String),
      CreateSignedUrls_request env a f = CreateSignedUrls_request env' a f)
  ∧ (∀ (env env' : String → String) (a su st : String),
      CreateBuild_request env a su st = CreateBuild_request env' a su st)
  ∧ (∀ (env env' : String → String) (a : String),
      ListBuilds_request env a = ListBuilds_request env' a)
  ∧ (∀ (env env' : String → String) (b : String),
      GetBuild_request env b = GetBuild_request env' b)
  ∧ (∀ (env env' : String → String) (s : String),
      GetDNSZones_request env s = GetDNSZones_request env' s)
  ∧ (∀ (env env' : String → String) (s d : String),
      FindDNSZone_request env s d = FindDNSZone_request env' s d)
  ∧ (∀ (env env' : String → String) (o d : String),
      CreateDNSZone_request env o d = CreateDNSZone_request env' o d)
  ∧ (∀ (env env' : String → String) (z : String),
      DeleteDNSZone_request env z = DeleteDNSZone_request env' z)
  ∧ (∀ (env env' : String → String) (z : String),
      GetDNSRecords_request env z = GetDNSRecords_request env' z)
  ∧ (∀ (env env' : String → String) (z : String),
      ExportDNSRecords_request env z = ExportDNSRecords_request env' z)
  ∧ (∀ (env env' : String → String) (z f : String),
      ImportDNSRecords_request env z f = ImportDNSRecords_request env' z f)
  ∧ (∀ env env' : String → String,
      PlatformRegions_request env = PlatformRegions_request env')
  ∧ (∀ env env' : String → String,
      PlatformRegionsAll_request env = PlatformRegionsAll_request env')
  ∧ (∀ env env' : String → String,
      PlatformVMSizes_request env = PlatformVMSizes_request env')
  ∧ (∀ (env env' : String → String) (s : String),
      GetLoggedCertificates_request env s = GetLoggedCertificates_request env' s)
  ∧ (∀ (env env' : String → String) (org : Organization) (ov : Bool),
      EstablishSSHKey_request env org ov = EstablishSSHKey_request env' org ov)
  ∧ (∀ (env env' : String → String) (org : Organization) (e : String)
        (u : Option String) (vh : Option Int),
      IssueSSHCertificate_request env org e u vh
        = IssueSSHCertificate_request env' org e u vh)
  ∧ (∀ (env env' : String → String) (s n : String),
      GetWireGuardPeerStatus_request env s n
        = GetWireGuardPeerStatus_request env' s n)
  ∧ (∀ (env env' : String → String) (s n : String),
      GetWireGuardPeer_request env s n = GetWireGuardPeer_request env' s n)
  ∧ (∀ (env env' : String → String) (s : String),
      GetWireGuardPeers_request env s = GetWireGuardPeers_request env' s)
  ∧ (∀ (env env' : String → String) (org : Organization) (n : String),
      RemoveWireGuardPeer_request env org n = RemoveWireGuardPeer_request env' org n)
  ∧ (∀ (env env' : String → String) (org : Organization) (n : String),
      CreateDelegatedWireGuardToken_request env org n
        = CreateDelegatedWireGuardToken_request env' org n)
  ∧ (∀ (env env' : String → String) (org : Organization)
        (n t : Option String),
      DeleteDelegatedWireGuardToken_request env org n t
        = DeleteDelegatedWireGuardToken_request env' org n t)
  ∧ (∀ (env env' : String → String) (s : String),
      GetDelegatedWireGuardTokens_request env s
        = GetDelegatedWireGuardTokens_request env' s)
  ∧ (∀ env env' : String → String,
      ClosestWireguardGatewayRegion_request env
        = ClosestWireguardGatewayRegion_request env')
  ∧ (∀ (env env' : String → String) (ips : List String),
      ValidateWireGuardPeers_request env ips = ValidateWireGuardPeers_request env' ips)
  ∧ (∀ (env env' : String → String) (i : GqlValue),
      DeployImageByInput_request env i = DeployImageByInput_request env' i)
  ∧ (∀ (env env' : String → String) (a d : String),
      GetDeploymentStatus_request env a d = GetDeploymentStatus_request env' a d)
  ∧ (∀ (env env' : String → String) (a : String),
      GetConfig_request env a = GetConfig_request env' a)
  ∧ (∀ (env env' : String → String) (a : String) (d : GqlValue),
      ParseConfig_request env a d = ParseConfig_request env' a d)
  ∧ (∀ (env env' : String → String) (a : String) (d : GqlValue),
      ValidateConfig_request env a d = ValidateConfig_request env' a d) :=
  ⟨by
    intro env org region name pubkey h
    have hb : (env "WG_NATS" != "") = true := bne_iff_ne.mpr h
    simp only [CreateWireGuardPeer_request, hb]
    cases hr : (region != "") <;> rfl,
   by
    intro env org region name pubkey h
    have hb : (env "WG_NATS" != "") = false := by
      rw [h]; rfl
    simp only [CreateWireGuardPeer_request, hb]
    cases hr : (region != "") <;> rfl,
   fun env env' => rfl, fun env env' => rfl, fun env env' a b => rfl,
   fun env env' => rfl, fun env env' a => rfl, fun env env' a l => rfl,
   fun env env' a s => rfl, fun env env' a ks => rfl, fun env env' a => rfl,
   fun env env' n o => rfl, fun env env' a => rfl, fun env env' a f => rfl,
   fun env env' a su st => rfl, fun env env' a => rfl, fun env env' b => rfl,
   fun env env' s => rfl, fun env env' s d => rfl, fun env env' o d => rfl,
   fun env env' z => rfl, fun env env' z => rfl, fun env env' z => rfl,
   fun env env' z f => rfl, fun env env' => rfl, fun env env' => rfl,
   fun env env' => rfl, fun env env' s => rfl, fun env env' org ov => rfl,
   fun env env' org e u vh => rfl, fun env env' s n => rfl,
   fun env env' s n => rfl, fun env env' s => rfl, fun env env' org n => rfl,
   fun env env' org n => rfl, fun env env' org n t => rfl,
   fun env env' s => rfl, fun env env' => rfl, fun env env' ips => rfl,
   fun env env' i => rfl, fun env env' a d => rfl, fun env env' a => rfl,
   fun env env' a d => rfl, fun env env' a d => rfl⟩

/-- Witness for C6: the flag bound under a set and under an unset
environment variable. -/
theorem createWireGuardPeer_only_env_branch_witness :
    inputField (CreateWireGuardPeer_request (fun _ => "1") default "" "p" "k")
      "nats" = some (GqlValue.bool true)
  ∧ inputField (CreateWireGuardPeer_request (fun _ => "") default "" "p" "k")
      "nats" = some (GqlValue.bool false) :=
  ⟨createWireGuardPeer_only_env_branch.1 (fun _ => "1") default "" "p" "k"
      (by decide),
   createWireGuardPeer_only_env_branch.2.1 (fun _ => "") default "" "p" "k" rfl⟩

/-- C7: for every operation, the transmitted (compacted) query document is
a constant of the operation alone: under every environment and every choice
of input values it equals the compaction of the operation's fixed document,
so two calls with different inputs always transmit the identical document;
the inputs only affect the variable map. -/
theorem query_documents_input_independent :
    (∀ env : String → String,
      (GetCurrentUser_request env).query = compactQueryString GetCurrentUser_query)
  ∧ (∀ env : String → String,
      (GetOrganizations_request env).query = compactQueryString GetOrganizations_query)
  ∧ (∀ (env : String → String) (a b : String),
      (DeployImage_request env a b).query = compactQueryString DeployImage_query)
  ∧ (∀ env : String → String,
      (GetApps_request env).query = compactQueryString GetApps_query)
  ∧ (∀ (env : String → String) (a : String),
      (GetApp_request env a).query = compactQueryString GetApp_query)
  ∧ (∀ (env : String → String) (a : String) (l : Int),
      (GetAppReleases_request env a l).query = compactQueryString GetAppReleases_query)
  ∧ (∀ (env : String → String) (a : String) (s : List (String × String)),
      (SetSecrets_request env a s).query = compactQueryString SetSecrets_query)
  ∧ (∀ (env : String → String) (a : String) (ks : List String),
      (UnsetSecrets_request env a ks).query = compactQueryString UnsetSecrets_query)
  ∧ (∀ (env : String → String) (a : String),
      (GetAppSecrets_request env a).query = compactQueryString GetAppSecrets_query)
  ∧ (∀ (env : String → String) (n o : String),
      (CreateApp_request env n o).query = compactQueryString CreateApp_query)
  ∧ (∀ (env : String → String) (a : String),
      (GetAppWithTasks_request env a).query = compactQueryString GetAppWithTasks_query)
  ∧ (∀ (env : String → String) (a f : String),
      (CreateSignedUrls_request env a f).query = compactQueryString CreateSignedUrls_query)
  ∧ (∀ (env : String → String) (a su st : String),
      (CreateBuild_request env a su st).query = compactQueryString CreateBuild_query)
  ∧ (∀ (env : String → String) (a : String),
      (ListBuilds_request env a).query = compactQueryString ListBuilds_query)
  ∧ (∀ (env : String → String) (b : String),
      (GetBuild_request env b).query = compactQueryString GetBuild_query)
  ∧ (∀ (env : String → String) (s : String),
      (GetDNSZones_request env s).query = compactQueryString GetDNSZones_query)
  ∧ (∀ (env : String → String) (s d : String),
      (FindDNSZone_request env s d).query = compactQueryString FindDNSZone_query)
  ∧ (∀ (env : String → String) (o d : String),
      (CreateDNSZone_request env o d).query = compactQueryString CreateDNSZone_query)
  ∧ (∀ (env : String → String) (z : String),
      (DeleteDNSZone_request env z).query = compactQueryString DeleteDNSZone_query)
  ∧ (∀ (env : String → String) (z : String),
      (GetDNSRecords_request env z).query = compactQueryString GetDNSRecords_query)
  ∧ (∀ (env : String → String) (z : String),
      (ExportDNSRecords_request env z).query = compactQueryString ExportDNSRecords_query)
  ∧ (∀ (env : String → String) (z f : String),
      (ImportDNSRecords_request env z f).query = compactQueryString ImportDNSRecords_query)
  ∧ (∀ env : String → String,
      (PlatformRegions_request env).query = compactQueryString PlatformRegions_query)
  ∧ (∀ env : String → String,
      (PlatformRegionsAll_request env).query = compactQueryString PlatformRegionsAll_query)
  ∧ (∀ env : String → String,
      (PlatformVMSizes_request env).query = compactQueryString PlatformVMSizes_query)
  ∧ (∀ (env : String → String) (s : String),
      (GetLoggedCertificates_request env s).query
        = compactQueryString GetLoggedCertificates_query)
  ∧ (∀ (env : String → String) (org : Organization) (ov : Bool),
      (EstablishSSHKey_request env org ov).query
        = compactQueryString EstablishSSHKey_query)
  ∧ (∀ (env : String → String) (org : Organization) (e : String)
        (u : Option String) (vh : Option Int),
      (IssueSSHCertificate_request env org e u vh).query
        = compactQueryString IssueSSHCertificate_query)
  ∧ (∀ (env : String → String) (s n : String),
      (GetWireGuardPeerStatus_request env s n).query
        = compactQueryString GetWireGuardPeerStatus_query)
  ∧ (∀ (env : String → String) (s n : String),
      (GetWireGuardPeer_request env s n).query
        = compactQueryString GetWireGuardPeer_query)
  ∧ (∀ (env : String → String) (s : String),
      (GetWireGuardPeers_request env s).query
        = compactQueryString GetWireGuardPeers_query)
  ∧ (∀ (env : String → String) (org : Organization)
        (region name pubkey : String),
      (CreateWireGuardPeer_request env org region name pubkey).query
        = compactQueryString CreateWireGuardPeer_query)
  ∧ (∀ (env : String → String) (org : Organization) (n : String),
      (RemoveWireGuardPeer_request env org n).query
        = compactQueryString RemoveWireGuardPeer_query)
  ∧ (∀ (env : String → String) (org : Organization) (n : String),
      (CreateDelegatedWireGuardToken_request env org n).query
        = compactQueryString CreateDelegatedWireGuardToken_query)
  ∧ (∀ (env : String → String) (org : Organization) (n t : Option String),
      DeleteDelegatedWireGuardToken_request env org n t = Outcome.nilPanic
      ∨ ∃ r : GqlRequest,
          DeleteDelegatedWireGuardToken_request env org n t = Outcome.ok r
          ∧ r.query = compactQueryString DeleteDelegatedWireGuardToken_query)
  ∧ (∀ (env : String → String) (s : String),
      (GetDelegatedWireGuardTokens_request env s).query
        = compactQueryString GetDelegatedWireGuardTokens_query)
  ∧ (∀ env : String → String,
      (ClosestWireguardGatewayRegion_request env).query
        = compactQueryString ClosestWireguardGatewayRegion_query)
  ∧ (∀ (env : String → String) (ips : List String),
      (ValidateWireGuardPeers_request env ips).query
        = compactQueryString ValidateWireGuardPeers_query)
  ∧ (∀ (env : String → String) (i : GqlValue),
      (DeployImageByInput_request env i).query = compactQueryString DeployImage_query)
  ∧ (∀ (env : String → String) (a d : String),
      (GetDeploymentStatus_request env a d).query
        = compactQueryString GetDeploymentStatus_query)
  ∧ (∀ (env : String → String) (a : String),
      (GetConfig_request env a).query = compactQueryString GetConfig_query)
  ∧ (∀ (env : String → String) (a : String) (d : GqlValue),
      (ParseConfig_request env a d).query = compactQueryString ParseConfig_query)
  ∧ (∀ (env : String → String) (a : String) (d : GqlValue),
      (ValidateConfig_request env a d).query = compactQueryString ValidateConfig_query) :=
  ⟨fun env => rfl, fun env => rfl, fun env a b => rfl, fun env => rfl,
   fun env a => rfl, fun env a l => rfl, fun env a s => rfl,
   fun env a ks => rfl, fun env a => rfl, fun env n o => rfl,
   fun env a => rfl, fun env a f => rfl, fun env a su st => rfl,
   fun env a => rfl, fun env b => rfl, fun env s => rfl, fun env s d => rfl,
   fun env o d => rfl, fun env z => rfl, fun env z => rfl, fun env z => rfl,
   fun env z f => rfl, fun env => rfl, fun env => rfl, fun env => rfl,
   fun env s => rfl, fun env org ov => rfl,
   by
    intro env org e u vh
    cases u <;> cases vh <;> rfl,
   fun env s n => rfl, fun env s n => rfl, fun env s => rfl,
   fun env org region name pubkey => rfl,
   fun env org n => rfl, fun env org n => rfl,
   by
    intro env org n t
    cases n with
    | some nm => exact Or.inr ⟨_, rfl, rfl⟩
    | none =>
      cases t with
      | some tok => exact Or.inr ⟨_, rfl, rfl⟩
      | none => exact Or.inl rfl,
   fun env s => rfl, fun env => rfl, fun env ips => rfl, fun env i => rfl,
   fun env a d => rfl, fun env a => rfl, fun env a d => rfl,
   fun env a d => rfl⟩

end FlyGo
